import Mathlib

/-!
Verification development for the chronos timetable core: a shallow
embedding of the schedule-resolution and override handlers
(src/routes/timetable/movedLesson, src/routes/timetable/substitution,
src/routes/timetable/lesson, and the timetable version selector),
with theorems settling the specification claims about them.

Modelling conventions, applied uniformly:
- The relational store is a record of row lists (`Db`).  Primary keys are
  strings; SQL row identity is row equality on these small records.
- Calendar dates are day numbers (`Nat`).  The source compares dates as
  ISO YYYY-MM-DD strings, whose lexicographic order coincides with
  calendar order, so a linearly ordered `Nat` is a faithful image.
- crypto.randomUUID is modelled by passing the fresh id as an argument.
- A drizzle query that throws (including `.values([])`, which drizzle
  rejects) surfaces in the handler as a thrown error; a handler-level
  try/catch that replaces every thrown error with a fresh 500 response
  is modelled by `rethrowAsInternal`.  A `db.transaction` whose body
  throws rolls the state back to the state at transaction entry.
- Request bodies are modelled post-JSON-parsing with `Option` fields
  (absent = undefined).  The JavaScript truthiness check
  `!(lessonIds && date)` lets an empty array through, which the model
  mirrors by testing only presence of the field.
-/

deriving instance DecidableEq for Except

namespace Chronos

/-- Timetable version row (table `timetable`). -/
structure TimetableRow where
  id : String
  validFrom : Nat
deriving Repr, DecidableEq

/-- Subject reference row. -/
structure SubjectRow where
  id : String
  name : String
  short : String
deriving Repr, DecidableEq

/-- Teacher reference row. -/
structure TeacherRow where
  id : String
  firstName : String
  lastName : String
  short : String
deriving Repr, DecidableEq

/-- Classroom reference row. -/
structure ClassroomRow where
  id : String
  name : String
  short : String
deriving Repr, DecidableEq

/-- Period reference row. -/
structure PeriodRow where
  id : String
  startTime : Nat
  endTime : Nat
  period : Nat
deriving Repr, DecidableEq

/-- Day-definition reference row. -/
structure DayRow where
  id : String
  name : String
deriving Repr, DecidableEq

/-- Base lesson row, with its array-typed teacher/classroom id columns. -/
structure LessonRow where
  id : String
  subjectId : String
  dayDefinitionId : String
  periodId : String
  teacherIds : List String
  classroomIds : List String
  weeksDefinitionId : String
  termDefinitionId : String
  periodsPerWeek : Nat
deriving Repr, DecidableEq

/-- MovedLesson override row.  The three positional fields are nullable. -/
structure MovedLessonRow where
  id : String
  date : Nat
  startingPeriod : Option String
  startingDay : Option String
  room : Option String
deriving Repr, DecidableEq

/-- Substitution override row.  The substituter is nullable. -/
structure SubstitutionRow where
  id : String
  date : Nat
  substituter : Option String
deriving Repr, DecidableEq

/-- The relational store: one list per table.  MTM link tables are lists
of (owner id, lesson id) pairs, in insertion order. -/
structure Db where
  timetables : List TimetableRow
  subjects : List SubjectRow
  teachers : List TeacherRow
  classrooms : List ClassroomRow
  periods : List PeriodRow
  days : List DayRow
  lessons : List LessonRow
  cohorts : List String
  lessonCohortMTM : List (String × String)
  movedLessons : List MovedLessonRow
  movedLessonLessonMTM : List (String × String)
  substitutions : List SubstitutionRow
  substitutionLessonMTM : List (String × String)
deriving Repr, DecidableEq

/-- Error classes a handler can surface to the caller, mirroring the
HTTPException status codes used in the source. -/
inductive ApiError where
  | badRequest (message : String)
  | notFound (message : String)
  | internalError (message : String)
deriving Repr, DecidableEq

/-- Models a handler whose whole body sits in a try/catch that rethrows
every error as a fresh HTTPException with status 500: whatever the body
threw, the caller observes only the generic InternalError. -/
def rethrowAsInternal (message : String) : Except ApiError α → Except ApiError α
  | .ok a => .ok a
  | .error _ => .error (.internalError message)

/-- Row lookup by primary key, modelling a select ... where id = i limit 1. -/
def lookupTeacher (teachers : List TeacherRow) (i : String) : Option TeacherRow :=
  teachers.find? (fun t => t.id == i)

/-- Row lookup by primary key for subjects. -/
def lookupSubject (subjects : List SubjectRow) (i : String) : Option SubjectRow :=
  subjects.find? (fun s => s.id == i)

/-- Row lookup by primary key for classrooms. -/
def lookupClassroom (classrooms : List ClassroomRow) (i : String) : Option ClassroomRow :=
  classrooms.find? (fun r => r.id == i)

/-- Row lookup by primary key for periods. -/
def lookupPeriod (periods : List PeriodRow) (i : String) : Option PeriodRow :=
  periods.find? (fun p => p.id == i)

/-- Row lookup by primary key for day definitions. -/
def lookupDay (days : List DayRow) (i : String) : Option DayRow :=
  days.find? (fun d => d.id == i)

/-! ## Timetable version selector (src/unnamed/part_000, getLatestValidTimetable) -/

/-- Models orderBy(desc(validFrom)).limit(1): the row with the greatest
validFrom among the given rows (ties resolved toward the earlier row in
table order, which the SQL leaves unspecified). -/
def maxByValidFrom : List TimetableRow → Option TimetableRow
  | [] => none
  | t :: ts =>
    match maxByValidFrom ts with
    | none => some t
    | some u => if t.validFrom < u.validFrom then some u else some t

/-- Embedding of getLatestValidTimetable: filters validFrom >= today
(gte(timetable.validFrom, today)) and takes the greatest validFrom;
returns none as the NotFound-as-success case (data = No valid timetable
found, success = true). -/
def getLatestValidTimetable (today : Nat) (db : Db) : Option TimetableRow :=
  maxByValidFrom (db.timetables.filter (fun t => decide (today ≤ t.validFrom)))

/-- Modelled from the spec: the intended selector of section 4.6, namely
the Timetable row with the greatest validFrom that does not exceed the
comparison date.  Kept separate from `getLatestValidTimetable`, which is
the source embedding, so the two directions can be compared. -/
def latestValidAsOfSpec (date : Nat) (db : Db) : Option TimetableRow :=
  maxByValidFrom (db.timetables.filter (fun t => decide (t.validFrom ≤ date)))

/-! ## Override aggregation reads -/

/-- ARRAY_AGG of movedLessonLessonMTM.lessonId over the link rows of one
moved lesson, in link-table order, no DISTINCT (getAllMovedLessons and
getRelevantMovedLessons do not deduplicate). -/
def movedLinkLessons (db : Db) (movedLessonId : String) : List String :=
  (db.movedLessonLessonMTM.filter (fun lk => lk.1 == movedLessonId)).map (fun lk => lk.2)

/-- ARRAY_AGG of substitutionLessonMTM.lessonId over the link rows of one
substitution, in link-table order, no DISTINCT (none of the substitution
reads deduplicate). -/
def subLinkLessons (db : Db) (substitutionId : String) : List String :=
  (db.substitutionLessonMTM.filter (fun lk => lk.1 == substitutionId)).map (fun lk => lk.2)

/-- One result row of a moved-lesson read: the override row, its resolved
reference rows from the left joins, and the aggregated lesson-id array. -/
structure MovedLessonView where
  movedLesson : MovedLessonRow
  period : Option PeriodRow
  dayDefinition : Option DayRow
  classroom : Option ClassroomRow
  lessons : List String
deriving Repr, DecidableEq

/-- One result row of a substitution read: the override row, the left
joined teacher, and the aggregated lesson-id array. -/
structure SubstitutionView where
  substitution : SubstitutionRow
  teacher : Option TeacherRow
  lessons : List String
deriving Repr, DecidableEq

/-- Builds the per-row projection the moved-lesson reads share: left
joins on period, dayDefinition and classroom (null field when the
reference does not resolve), grouped by the override id. -/
def movedLessonView (db : Db) (m : MovedLessonRow) (lessons : List String) : MovedLessonView :=
  { movedLesson := m
    period := m.startingPeriod.bind (lookupPeriod db.periods)
    dayDefinition := m.startingDay.bind (lookupDay db.days)
    classroom := m.room.bind (lookupClassroom db.classrooms)
    lessons := lessons }

/-- Embedding of getAllMovedLessons: every override row, lesson array
aggregated without DISTINCT. -/
def getAllMovedLessons (db : Db) : List MovedLessonView :=
  db.movedLessons.map (fun m => movedLessonView db m (movedLinkLessons db m.id))

/-- Embedding of getRelevantMovedLessons: where(gte(movedLesson.date,
todayStr)), lesson array aggregated without DISTINCT. -/
def getRelevantMovedLessons (today : Nat) (db : Db) : List MovedLessonView :=
  (db.movedLessons.filter (fun m => decide (today ≤ m.date))).map
    (fun m => movedLessonView db m (movedLinkLessons db m.id))

/-- Membership test on the lesson-cohort link table. -/
def lessonInCohort (db : Db) (lessonId cohortId : String) : Bool :=
  db.lessonCohortMTM.any (fun lc => lc.1 == lessonId && lc.2 == cohortId)

/-- Link rows of one moved lesson whose lesson belongs to the cohort:
the join chain movedLessonLessonMTM, lesson, lessonCohortMTM restricted
by where(lessonCohortMTM.cohortId = cohortId). -/
def movedLinkLessonsInCohort (db : Db) (movedLessonId cohortId : String) : List String :=
  (db.movedLessonLessonMTM.filter
      (fun lk => lk.1 == movedLessonId && lessonInCohort db lk.2 cohortId)).map
    (fun lk => lk.2)

/-- Embedding of getMovedLessonsForCohort: the where clause on the left
joined cohort link drops override rows with no qualifying join row, and
the lesson array is aggregated with ARRAY_AGG(DISTINCT ...), modelled by
List.dedup (the DISTINCT contract is multiplicity, not order). -/
def getMovedLessonsForCohort (db : Db) (cohortId : String) : List MovedLessonView :=
  db.movedLessons.filterMap (fun m =>
    let ls := (movedLinkLessonsInCohort db m.id cohortId).dedup
    if ls.isEmpty then none else some (movedLessonView db m ls))

/-- Embedding of getRelevantMovedLessonsForCohort: the cohort join filter
of getMovedLessonsForCohort plus gte(movedLesson.date, todayStr), with
ARRAY_AGG(DISTINCT ...). -/
def getRelevantMovedLessonsForCohort (today : Nat) (db : Db) (cohortId : String) :
    List MovedLessonView :=
  (db.movedLessons.filter (fun m => decide (today ≤ m.date))).filterMap (fun m =>
    let ls := (movedLinkLessonsInCohort db m.id cohortId).dedup
    if ls.isEmpty then none else some (movedLessonView db m ls))

/-- Builds the per-row projection the substitution reads share: left join
on teacher via substituter. -/
def substitutionView (db : Db) (s : SubstitutionRow) (lessons : List String) : SubstitutionView :=
  { substitution := s
    teacher := s.substituter.bind (lookupTeacher db.teachers)
    lessons := lessons }

/-- Embedding of getAllSubstitutions: every override row, lesson array
aggregated without DISTINCT. -/
def getAllSubstitutions (db : Db) : List SubstitutionView :=
  db.substitutions.map (fun s => substitutionView db s (subLinkLessons db s.id))

/-- Embedding of getRelevantSubstitutions: where(gte(substitution.date,
today)), lesson array aggregated without DISTINCT. -/
def getRelevantSubstitutions (today : Nat) (db : Db) : List SubstitutionView :=
  (db.substitutions.filter (fun s => decide (today ≤ s.date))).map
    (fun s => substitutionView db s (subLinkLessons db s.id))

/-- Link rows of one substitution whose lesson belongs to the cohort. -/
def subLinkLessonsInCohort (db : Db) (substitutionId cohortId : String) : List String :=
  (db.substitutionLessonMTM.filter
      (fun lk => lk.1 == substitutionId && lessonInCohort db lk.2 cohortId)).map
    (fun lk => lk.2)

/-- Embedding of getRelevantSubstitutionsForCohort: date filter plus the
cohort join filter; note the aggregation has no DISTINCT in this read. -/
def getRelevantSubstitutionsForCohort (today : Nat) (db : Db) (cohortId : String) :
    List SubstitutionView :=
  (db.substitutions.filter (fun s => decide (today ≤ s.date))).filterMap (fun s =>
    let ls := subLinkLessonsInCohort db s.id cohortId
    if ls.isEmpty then none else some (substitutionView db s ls))

/-! ## Substitution mutations -/

/-- Parsed body of a substitution create or update request; absent fields
are none.  Create requires date and lessonIds to be present (JavaScript
truthiness, which an empty array passes). -/
structure SubstitutionBody where
  date : Option Nat
  lessonIds : Option (List String)
  substituter : Option String
deriving Repr, DecidableEq

/-- Embedding of db.dollarCount(lesson, inArray(lesson.id, lessonIds)):
the number of lesson rows whose id occurs in the supplied list.
Duplicate entries in the list do not multiply the count, because the
count ranges over table rows. -/
def countLessons (db : Db) (ids : List String) : Nat :=
  (db.lessons.filter (fun l => ids.contains l.id)).length

/-- Embedding of createSubstitution.  The handler has no try/catch of its
own, so validation errors reach the caller unwrapped.  The row insert and
the MTM insert run inside db.transaction: a failure of the MTM insert
(injected via mtmFails, and also the drizzle rejection of an empty values
list) rolls the whole transaction back.  The fresh uuid is newId. -/
def createSubstitution (mtmFails : Bool) (db : Db) (newId : String)
    (b : SubstitutionBody) : Except ApiError SubstitutionRow × Db :=
  match b.lessonIds, b.date with
  | some lessonIds, some date =>
    if countLessons db lessonIds = lessonIds.length then
      let row : SubstitutionRow := { id := newId, date := date, substituter := b.substituter }
      match lessonIds with
      | [] =>
        -- drizzle throws on .values([]); the transaction rolls back and the
        -- uncaught error surfaces as a generic 500
        (.error (.internalError "Internal Server Error"), db)
      | _ :: _ =>
        if mtmFails then
          (.error (.internalError "Internal Server Error"), db)
        else
          (.ok row,
            { db with
                substitutions := db.substitutions ++ [row]
                substitutionLessonMTM :=
                  db.substitutionLessonMTM ++ lessonIds.map (fun l => (newId, l)) })
    else
      (.error (.badRequest "attempted to substitute non-existent lesson(s)"), db)
  | _, _ =>
    (.error (.badRequest "Missing required fields: lessonIds and date are required."), db)

/-- Inner body of updateSubstitution, before the handler-level catch:
existence check (NotFound), then the lesson-count check when lessonIds is
supplied, then a transaction that updates the row (absent fields keep the
old value) and, when lessonIds is supplied, deletes every existing link
and re-inserts the new list.  An empty supplied list makes the MTM insert
throw inside the transaction, rolling everything back. -/
def updateSubstitutionInner (mtmFails : Bool) (db : Db) (id : String)
    (b : SubstitutionBody) : Except ApiError SubstitutionRow × Db :=
  match db.substitutions.find? (fun s => s.id == id) with
  | none => (.error (.notFound "Substitution not found"), db)
  | some old =>
    let lessonsOk :=
      match b.lessonIds with
      | none => true
      | some ids => countLessons db ids == ids.length
    if lessonsOk then
      let updated : SubstitutionRow :=
        { old with
            date := b.date.getD old.date
            substituter := match b.substituter with
              | some s => some s
              | none => old.substituter }
      let dbRow :=
        { db with
            substitutions := db.substitutions.map (fun s => if s.id == id then updated else s) }
      match b.lessonIds with
      | none => (.ok updated, dbRow)
      | some [] =>
        -- the delete succeeded inside the transaction, but .values([]) throws,
        -- so the transaction rolls back to the original state
        (.error (.internalError "Internal Server Error"), db)
      | some ids =>
        if mtmFails then
          (.error (.internalError "Internal Server Error"), db)
        else
          (.ok updated,
            { dbRow with
                substitutionLessonMTM :=
                  (db.substitutionLessonMTM.filter (fun lk => lk.1 != id)) ++
                    ids.map (fun l => (id, l)) })
    else
      (.error (.badRequest "Some lessons do not exist"), db)

/-- Embedding of updateSubstitution as the caller observes it: the whole
handler body sits in a try/catch that rethrows every error, including the
NotFound and BadRequest it threw itself, as a 500. -/
def updateSubstitution (mtmFails : Bool) (db : Db) (id : String)
    (b : SubstitutionBody) : Except ApiError SubstitutionRow × Db :=
  let r := updateSubstitutionInner mtmFails db id b
  (rethrowAsInternal "Failed to update substitution" r.1, r.2)

/-- Inner body of deleteSubstitution: existence check (NotFound), then
the row delete; the MTM link rows go with it through the schema CASCADE
constraint the source comments rely on. -/
def deleteSubstitutionInner (db : Db) (id : String) :
    Except ApiError SubstitutionRow × Db :=
  match db.substitutions.find? (fun s => s.id == id) with
  | none => (.error (.notFound "Substitution not found"), db)
  | some old =>
    (.ok old,
      { db with
          substitutions := db.substitutions.filter (fun s => s.id != id)
          substitutionLessonMTM := db.substitutionLessonMTM.filter (fun lk => lk.1 != id) })

/-- Embedding of deleteSubstitution as the caller observes it: the
handler-level catch turns its own NotFound into a 500. -/
def deleteSubstitution (db : Db) (id : String) : Except ApiError SubstitutionRow × Db :=
  let r := deleteSubstitutionInner db id
  (rethrowAsInternal "Failed to delete substitution" r.1, r.2)

/-! ## MovedLesson mutations -/

/-- Parsed body of a moved-lesson create or update request; absent fields
are none.  The normalize helpers of the source reject non-string and
non-array payloads with BadRequest; the model works on the normalized
values, so type errors are out of scope here. -/
structure MovedLessonBody where
  date : Option Nat
  startingPeriod : Option String
  startingDay : Option String
  room : Option String
  lessonIds : Option (List String)
deriving Repr, DecidableEq

/-- Embedding of ensureLessonsExist: the supplied ids with no matching
lesson row, reported all at once. -/
def missingLessonIds (db : Db) (ids : List String) : List String :=
  ids.filter (fun i => !(db.lessons.any (fun l => l.id == i)))

/-- Embedding of validateMovedLessonReferences: each present positional
reference must resolve (BadRequest naming the field otherwise), and a
present non-empty lesson-id list must fully resolve. -/
def validateMovedLessonReferences (db : Db) (b : MovedLessonBody) : Except ApiError Unit := do
  match b.startingPeriod with
  | some p =>
    if (lookupPeriod db.periods p).isSome then pure () else
      throw (.badRequest "Invalid starting period provided")
  | none => pure ()
  match b.startingDay with
  | some d =>
    if (lookupDay db.days d).isSome then pure () else
      throw (.badRequest "Invalid starting day provided")
  | none => pure ()
  match b.room with
  | some r =>
    if (lookupClassroom db.classrooms r).isSome then pure () else
      throw (.badRequest "Invalid classroom provided")
  | none => pure ()
  match b.lessonIds with
  | some ids =>
    if ids.isEmpty then pure ()
    else if (missingLessonIds db ids).isEmpty then pure ()
    else throw (.badRequest "Invalid lesson ids provided")
  | none => pure ()

/-- Inner body of createMovedLesson.  Unlike createSubstitution there is
no transaction: the override row is inserted and committed first, and the
MTM insert runs afterwards as a separate statement, so a failing MTM
insert (mtmFails) leaves the already-persisted row behind with no links. -/
def createMovedLessonInner (mtmFails : Bool) (db : Db) (newId : String)
    (b : MovedLessonBody) : Except ApiError MovedLessonRow × Db :=
  match b.date with
  | none => (.error (.badRequest "Date is required"), db)
  | some date =>
    match validateMovedLessonReferences db b with
    | .error e => (.error e, db)
    | .ok _ =>
      let row : MovedLessonRow :=
        { id := newId, date := date, startingPeriod := b.startingPeriod
          startingDay := b.startingDay, room := b.room }
      let db1 := { db with movedLessons := db.movedLessons ++ [row] }
      match b.lessonIds with
      | some (i :: rest) =>
        if mtmFails then
          (.error (.internalError "mtm insert failed"), db1)
        else
          (.ok row,
            { db1 with
                movedLessonLessonMTM :=
                  db1.movedLessonLessonMTM ++ (i :: rest).map (fun l => (newId, l)) })
      | _ => (.ok row, db1)

/-- Embedding of createMovedLesson as the caller observes it: the
handler-level catch rethrows everything as a 500. -/
def createMovedLesson (mtmFails : Bool) (db : Db) (newId : String)
    (b : MovedLessonBody) : Except ApiError MovedLessonRow × Db :=
  let r := createMovedLessonInner mtmFails db newId b
  (rethrowAsInternal "Failed to create moved lesson" r.1, r.2)

/-- Inner body of updateMovedLesson: reference validation first, then the
row update (absent fields keep the old value; an id with no row yields
NotFound from the empty returning set).  The link replacement runs as
separate statements outside any transaction: the delete commits even when
the subsequent insert fails (mtmFails), leaving a partial state. -/
def updateMovedLessonInner (mtmFails : Bool) (db : Db) (id : String)
    (b : MovedLessonBody) : Except ApiError MovedLessonRow × Db :=
  match validateMovedLessonReferences db b with
  | .error e => (.error e, db)
  | .ok _ =>
    match db.movedLessons.find? (fun m => m.id == id) with
    | none => (.error (.notFound "Moved lesson not found"), db)
    | some old =>
      let updated : MovedLessonRow :=
        { old with
            date := b.date.getD old.date
            startingPeriod := match b.startingPeriod with
              | some p => some p
              | none => old.startingPeriod
            startingDay := match b.startingDay with
              | some d => some d
              | none => old.startingDay
            room := match b.room with
              | some r => some r
              | none => old.room }
      let db1 :=
        { db with
            movedLessons := db.movedLessons.map (fun m => if m.id == id then updated else m) }
      match b.lessonIds with
      | none => (.ok updated, db1)
      | some ids =>
        let db2 :=
          { db1 with
              movedLessonLessonMTM := db1.movedLessonLessonMTM.filter (fun lk => lk.1 != id) }
        match ids with
        | [] => (.ok updated, db2)
        | _ :: _ =>
          if mtmFails then
            (.error (.internalError "mtm insert failed"), db2)
          else
            (.ok updated,
              { db2 with
                  movedLessonLessonMTM :=
                    db2.movedLessonLessonMTM ++ ids.map (fun l => (id, l)) })

/-- Embedding of updateMovedLesson as the caller observes it: the
handler-level catch turns every error, including its own NotFound, into
a 500. -/
def updateMovedLesson (mtmFails : Bool) (db : Db) (id : String)
    (b : MovedLessonBody) : Except ApiError MovedLessonRow × Db :=
  let r := updateMovedLessonInner mtmFails db id b
  (rethrowAsInternal "Failed to update moved lesson" r.1, r.2)

/-- Inner body of deleteMovedLesson: the row delete with returning; an
empty returning set yields NotFound; the MTM link rows cascade. -/
def deleteMovedLessonInner (db : Db) (id : String) :
    Except ApiError MovedLessonRow × Db :=
  match db.movedLessons.find? (fun m => m.id == id) with
  | none => (.error (.notFound "Moved lesson not found"), db)
  | some old =>
    (.ok old,
      { db with
          movedLessons := db.movedLessons.filter (fun m => m.id != id)
          movedLessonLessonMTM := db.movedLessonLessonMTM.filter (fun lk => lk.1 != id) })

/-- Embedding of deleteMovedLesson as the caller observes it: the
handler-level catch turns its own NotFound into a 500. -/
def deleteMovedLesson (db : Db) (id : String) : Except ApiError MovedLessonRow × Db :=
  let r := deleteMovedLessonInner db id
  (rethrowAsInternal "Failed to delete moved lesson" r.1, r.2)

/-! ## Lesson enrichment (src/routes/timetable/lesson, getLessonsForCohort) -/

/-- The id/name/short projection used for subject, teacher and classroom
references in the enriched output. -/
structure RefProj where
  id : String
  name : String
  short : String
deriving Repr, DecidableEq

/-- The id/startTime/endTime/period projection used for the period
reference (the times are stringified in the source). -/
structure PeriodProj where
  id : String
  startTime : String
  endTime : String
  period : Nat
deriving Repr, DecidableEq

/-- One enriched lesson record as produced by getLessonsForCohort. -/
structure EnrichedLesson where
  id : String
  subject : Option RefProj
  teachers : List RefProj
  classrooms : List RefProj
  day : Option DayRow
  period : Option PeriodProj
  weeksDefinitionId : String
  termDefinitionId : String
  periodsPerWeek : Nat
deriving Repr, DecidableEq

/-- Projection of one lesson against the catalog row sets.  The source
builds per-kind Maps from the batch-fetched rows and looks each id up;
since the fetch covers exactly the referenced ids, a map hit coincides
with a primary-key lookup in the full table.  The teacher/classroom
pipeline map-get then filter(Boolean) is List.filterMap: an unresolvable
id drops out of the list; an unresolvable subject or period projects to
none; an unresolvable day stays undefined, also modelled as none. -/
def enrichLesson (subjects : List SubjectRow) (days : List DayRow)
    (periods : List PeriodRow) (teachers : List TeacherRow)
    (classrooms : List ClassroomRow) (l : LessonRow) : EnrichedLesson :=
  { id := l.id
    subject := (lookupSubject subjects l.subjectId).map
      (fun s => { id := s.id, name := s.name, short := s.short })
    teachers := (l.teacherIds.filterMap (lookupTeacher teachers)).map
      (fun t => { id := t.id, name := t.firstName ++ " " ++ t.lastName, short := t.short })
    classrooms := (l.classroomIds.filterMap (lookupClassroom classrooms)).map
      (fun r => { id := r.id, name := r.name, short := r.short })
    day := lookupDay days l.dayDefinitionId
    period := (lookupPeriod periods l.periodId).map
      (fun p => { id := p.id, startTime := toString p.startTime
                  endTime := toString p.endTime, period := p.period })
    weeksDefinitionId := l.weeksDefinitionId
    termDefinitionId := l.termDefinitionId
    periodsPerWeek := l.periodsPerWeek }

/-- The inner join of lesson with lessonCohortMTM restricted to one
cohort: one lesson row per qualifying link row. -/
def cohortLessons (db : Db) (cohortId : String) : List LessonRow :=
  (db.lessonCohortMTM.filter (fun lc => lc.2 == cohortId)).filterMap
    (fun lc => db.lessons.find? (fun l => l.id == lc.1))

/-- Embedding of getLessonsForCohort: NotFound when the cohort id itself
does not resolve (checked before the join), an empty list with success
for a cohort with zero lessons, and otherwise one enriched record per
joined lesson. -/
def getLessonsForCohort (db : Db) (cohortId : String) :
    Except ApiError (List EnrichedLesson) :=
  if db.cohorts.contains cohortId then
    .ok ((cohortLessons db cohortId).map
      (enrichLesson db.subjects db.days db.periods db.teachers db.classrooms))
  else
    .error (.notFound "Cohort not found")

/-! ## Sample databases used by the concrete evaluations -/

/-- Empty store. -/
def emptyDb : Db :=
  { timetables := [], subjects := [], teachers := [], classrooms := []
    periods := [], days := [], lessons := [], cohorts := []
    lessonCohortMTM := [], movedLessons := [], movedLessonLessonMTM := []
    substitutions := [], substitutionLessonMTM := [] }

/-- A single base lesson used by the mutation scenarios. -/
def lessonL1 : LessonRow :=
  { id := "L1", subjectId := "SUB1", dayDefinitionId := "D1", periodId := "P1"
    teacherIds := ["T1", "T2"], classroomIds := ["R1", "R2"]
    weeksDefinitionId := "W1", termDefinitionId := "TERM1", periodsPerWeek := 2 }

/-- Store holding only the lesson L1: every reference catalog is empty,
so no teacher id resolves. -/
def dbOneLesson : Db := { emptyDb with lessons := [lessonL1] }

/-- Store whose link tables name the same (override, lesson) pair twice,
for both override kinds, with the lesson in cohort K1. -/
def dbDupLinks : Db :=
  { emptyDb with
      lessons := [lessonL1]
      cohorts := ["K1"]
      lessonCohortMTM := [("L1", "K1")]
      movedLessons := [{ id := "M1", date := 10, startingPeriod := none
                         startingDay := none, room := none }]
      movedLessonLessonMTM := [("M1", "L1"), ("M1", "L1")]
      substitutions := [{ id := "S1", date := 10, substituter := none }]
      substitutionLessonMTM := [("S1", "L1"), ("S1", "L1")] }

/-- Store with one substitution S1 currently linked to lesson L1. -/
def dbSubLinked : Db :=
  { emptyDb with
      lessons := [lessonL1]
      substitutions := [{ id := "S1", date := 10, substituter := none }]
      substitutionLessonMTM := [("S1", "L1")] }

/-- Store with one timetable version that became valid at day 100. -/
def dbOneTimetable : Db :=
  { emptyDb with timetables := [{ id := "T1", validFrom := 100 }] }

/-- Store with one past version (day 100) and two future versions
(days 300 and 400) relative to the comparison date 200. -/
def dbThreeTimetables : Db :=
  { emptyDb with
      timetables := [{ id := "T1", validFrom := 100 },
                     { id := "T2", validFrom := 300 },
                     { id := "T3", validFrom := 400 }] }

/-! ## Claim theorems -/

/-- C1: the override-row write and the MTM replace are required to be
atomic for every create or update that supplies a lesson-id list.  The
substitution handlers honour this (a failing MTM insert rolls the whole
transaction back, last conjunct), but createMovedLesson runs its two
inserts as separate committed statements: when the MTM insert fails, the
caller gets an error yet the movedLesson row stays persisted with zero
link rows, the partial state the claim forbids. -/
theorem createMovedLesson_row_persists_when_mtm_insert_fails :
    (createMovedLesson true dbOneLesson "M1"
        { date := some 10, startingPeriod := none, startingDay := none
          room := none, lessonIds := some ["L1"] }).1 =
      .error (.internalError "Failed to create moved lesson")
  ∧ (createMovedLesson true dbOneLesson "M1"
        { date := some 10, startingPeriod := none, startingDay := none
          room := none, lessonIds := some ["L1"] }).2.movedLessons =
      [{ id := "M1", date := 10, startingPeriod := none, startingDay := none, room := none }]
  ∧ (createMovedLesson true dbOneLesson "M1"
        { date := some 10, startingPeriod := none, startingDay := none
          room := none, lessonIds := some ["L1"] }).2.movedLessonLessonMTM = []
  ∧ createSubstitution true dbOneLesson "S1"
        { date := some 10, lessonIds := some ["L1"], substituter := none } =
      (.error (.internalError "Internal Server Error"), dbOneLesson) := by
  decide

/-- C2: for an override id that resolves to no row, the handlers do build
a NotFound (first, third and fifth conjuncts, on the inner bodies), but
each handler wraps its whole body in a catch that rethrows every error as
a generic 500, so what the caller actually observes is InternalError, not
the NotFound the claim promises. -/
theorem missing_override_id_observed_as_internalError :
    updateMovedLessonInner false emptyDb "missing"
        { date := none, startingPeriod := none, startingDay := none
          room := none, lessonIds := none } =
      (.error (.notFound "Moved lesson not found"), emptyDb)
  ∧ (updateMovedLesson false emptyDb "missing"
        { date := none, startingPeriod := none, startingDay := none
          room := none, lessonIds := none }).1 =
      .error (.internalError "Failed to update moved lesson")
  ∧ deleteMovedLessonInner emptyDb "missing" =
      (.error (.notFound "Moved lesson not found"), emptyDb)
  ∧ (deleteMovedLesson emptyDb "missing").1 =
      .error (.internalError "Failed to delete moved lesson")
  ∧ deleteSubstitutionInner emptyDb "missing" =
      (.error (.notFound "Substitution not found"), emptyDb)
  ∧ (deleteSubstitution emptyDb "missing").1 =
      .error (.internalError "Failed to delete substitution") := by
  decide

/-- C3: the claim (and the spec intent of section 4.6) selects the
greatest validFrom not exceeding the comparison date, but the source
filters validFrom greater-or-equal today and takes the maximum: with one
version valid from day 100 and comparison date 200 the code reports no
valid timetable where the claimed selector returns that version, and with
future versions 300 and 400 the code picks the farthest future one. -/
theorem getLatestValidTimetable_filters_future_not_past :
    getLatestValidTimetable 200 dbOneTimetable = none
  ∧ latestValidAsOfSpec 200 dbOneTimetable = some { id := "T1", validFrom := 100 }
  ∧ getLatestValidTimetable 200 dbThreeTimetables = some { id := "T3", validFrom := 400 }
  ∧ latestValidAsOfSpec 200 dbThreeTimetables = some { id := "T1", validFrom := 100 } := by
  decide

/-- C4 counterexample: with the link table naming the pair (M1, L1) and
the pair (S1, L1) twice, every read variant that aggregates without
DISTINCT hands the caller the lesson id L1 twice, so the claim that each
lesson id appears at most once fails on these variants. -/
theorem duplicate_link_pair_survives_in_unfiltered_reads :
    (getAllMovedLessons dbDupLinks).map (fun v => v.lessons) = [["L1", "L1"]]
  ∧ (getRelevantMovedLessons 10 dbDupLinks).map (fun v => v.lessons) = [["L1", "L1"]]
  ∧ (getAllSubstitutions dbDupLinks).map (fun v => v.lessons) = [["L1", "L1"]]
  ∧ (getRelevantSubstitutions 10 dbDupLinks).map (fun v => v.lessons) = [["L1", "L1"]]
  ∧ (getRelevantSubstitutionsForCohort 10 dbDupLinks "K1").map (fun v => v.lessons) =
      [["L1", "L1"]] := by
  decide

/-- C4 amended: only the cohort-filtered MovedLesson reads aggregate with
ARRAY_AGG(DISTINCT ...); for those two variants every override row hands
the caller each affected lesson id at most once. -/
theorem forCohort_movedLesson_reads_deduplicate (db : Db) (cohortId : String)
    (today : Nat) (v w : MovedLessonView)
    (hv : v ∈ getMovedLessonsForCohort db cohortId)
    (hw : w ∈ getRelevantMovedLessonsForCohort today db cohortId) :
    v.lessons.Nodup ∧ w.lessons.Nodup := by
  constructor
  · simp only [getMovedLessonsForCohort] at hv
    rcases List.mem_filterMap.mp hv with ⟨m, _, hf⟩
    split at hf
    · simp at hf
    · cases hf
      exact List.nodup_dedup _
  · simp only [getRelevantMovedLessonsForCohort] at hw
    rcases List.mem_filterMap.mp hw with ⟨m, _, hf⟩
    split at hf
    · simp at hf
    · cases hf
      exact List.nodup_dedup _

/-- C4 amended, witness at the duplicated-link store: both cohort-filtered
variants return the single view whose lesson list is the deduplicated
singleton, and that list has no duplicate. -/
theorem forCohort_movedLesson_reads_deduplicate_witness :
    (movedLessonView dbDupLinks
        { id := "M1", date := 10, startingPeriod := none, startingDay := none, room := none }
        ["L1"]).lessons.Nodup
  ∧ (movedLessonView dbDupLinks
        { id := "M1", date := 10, startingPeriod := none, startingDay := none, room := none }
        ["L1"]).lessons.Nodup :=
  forCohort_movedLesson_reads_deduplicate dbDupLinks "K1" 10 _ _
    (by decide) (by decide)

/-- C5 counterexample: the store has no teacher row at all, yet creating a
substitution whose substituter is the unresolvable id T-ghost succeeds and
persists the row carrying that id; no InvalidReference is raised and a row
is written, refuting the claim on both counts. -/
theorem createSubstitution_accepts_unresolvable_substituter :
    createSubstitution false dbOneLesson "S2"
        { date := some 10, lessonIds := some ["L1"], substituter := some "T-ghost" } =
      (.ok { id := "S2", date := 10, substituter := some "T-ghost" },
        { dbOneLesson with
            substitutions := [{ id := "S2", date := 10, substituter := some "T-ghost" }]
            substitutionLessonMTM := [("S2", "L1")] })
  ∧ lookupTeacher dbOneLesson.teachers "T-ghost" = none := by
  decide

/-- C5 amended: neither createSubstitution nor updateSubstitution ever
consults the teacher table for the supplied substituter: with the other
inputs valid, both operations succeed for an arbitrary substituter string
and the resulting row carries it verbatim. -/
theorem substituter_never_validated (db : Db) (newId sub : String) (date : Nat)
    (ids : List String) (sid : String) (old : SubstitutionRow)
    (hne : ids ≠ [])
    (hcount : countLessons db ids = ids.length)
    (hfind : db.substitutions.find? (fun s => s.id == sid) = some old) :
    (createSubstitution false db newId
        { date := some date, lessonIds := some ids, substituter := some sub }).1 =
      .ok { id := newId, date := date, substituter := some sub }
  ∧ (updateSubstitutionInner false db sid
        { date := none, lessonIds := none, substituter := some sub }).1 =
      .ok { old with substituter := some sub } := by
  constructor
  · match ids, hne with
    | i :: rest, _ =>
      simp [createSubstitution, hcount]
  · simp only [updateSubstitutionInner, hfind]
    rfl

/-- C5 amended, witness: in the store dbSubLinked the teacher table is
empty, yet create and update both succeed with substituter T-ghost. -/
theorem substituter_never_validated_witness :
    (createSubstitution false dbSubLinked "S2"
        { date := some 10, lessonIds := some ["L1"], substituter := some "T-ghost" }).1 =
      .ok { id := "S2", date := 10, substituter := some "T-ghost" }
  ∧ (updateSubstitutionInner false dbSubLinked "S1"
        { date := none, lessonIds := none, substituter := some "T-ghost" }).1 =
      .ok { id := "S1", date := 10, substituter := some "T-ghost" } :=
  substituter_never_validated dbSubLinked "S2" "T-ghost" 10 ["L1"] "S1"
    { id := "S1", date := 10, substituter := none }
    (by decide) (by decide) (by decide)

/-- C6 counterexample: a create whose lesson-id list is empty is not
rejected as BadRequest; it reaches the transaction, whose empty MTM
values list throws, and the caller observes InternalError with the store
unchanged (rollback). -/
theorem createSubstitution_empty_list_not_badRequest :
    createSubstitution false dbOneLesson "S9"
        { date := some 10, lessonIds := some [], substituter := none } =
      (.error (.internalError "Internal Server Error"), dbOneLesson) := by
  decide

/-- C6 amended: for every store, an empty lesson-id list passes both the
presence check (the field is present, merely empty) and the cardinality
check (zero matches zero), and the create then fails inside the
transaction on the empty MTM insert: the caller observes InternalError,
not BadRequest, and no substitution row is persisted. -/
theorem createSubstitution_empty_list_internalError (db : Db) (newId : String)
    (date : Nat) (sub : Option String) :
    createSubstitution false db newId
        { date := some date, lessonIds := some [], substituter := sub } =
      (.error (.internalError "Internal Server Error"), db) := by
  have hcount : countLessons db [] = 0 := by
    simp [countLessons]
  simp only [createSubstitution, hcount, List.length_nil, if_pos]

/-- A second base lesson, distinct from L1 only in its id. -/
def lessonL2 : LessonRow := { lessonL1 with id := "L2" }

/-- Store holding both override kinds, each linked to lesson L1, with a
second lesson L2 available as a replacement target. -/
def dbBothOverrides : Db :=
  { emptyDb with
      lessons := [lessonL1, lessonL2]
      substitutions := [{ id := "S1", date := 10, substituter := none }]
      substitutionLessonMTM := [("S1", "L1")]
      movedLessons := [{ id := "M1", date := 10, startingPeriod := none
                         startingDay := none, room := none }]
      movedLessonLessonMTM := [("M1", "L1")] }

/-- After deleting every link of one override and re-inserting the new
list, the links grouped under that override are exactly the new list. -/
theorem links_after_full_replace (links : List (String × String)) (oid : String)
    (ids : List String) :
    ((links.filter (fun lk => lk.1 != oid) ++ ids.map (fun l => (oid, l))).filter
        (fun lk => lk.1 == oid)).map (fun lk => lk.2) = ids := by
  rw [List.filter_append]
  have h1 : (links.filter (fun lk => lk.1 != oid)).filter (fun lk => lk.1 == oid) = [] := by
    rw [List.filter_filter]
    apply List.filter_eq_nil_iff.mpr
    intro a _
    simp [bne]
  have h2 : (ids.map (fun l => (oid, l))).filter (fun lk => lk.1 == oid) =
      ids.map (fun l => (oid, l)) := by
    apply List.filter_eq_self.mpr
    intro a ha
    rcases List.mem_map.mp ha with ⟨l, _, rfl⟩
    simp
  rw [h1, h2, List.nil_append, List.map_map]
  simp

/-- C7 counterexample: supplying the empty lesson-id list to
updateSubstitution does not replace the membership with the empty set:
the transaction throws on the empty MTM insert and rolls back, the caller
observes InternalError, and a subsequent read still yields the residual
link to L1 instead of the supplied empty list. -/
theorem updateSubstitution_empty_list_is_not_full_replace :
    updateSubstitution false dbSubLinked "S1"
        { date := none, lessonIds := some [], substituter := none } =
      (.error (.internalError "Failed to update substitution"), dbSubLinked)
  ∧ subLinkLessons dbSubLinked "S1" = ["L1"] := by
  decide

/-- C7 amended: for a supplied non-empty lesson-id list the update fully
replaces the MTM membership of the override (the links grouped under the
override id afterwards are exactly the new list, no residual), and an
update omitting the field leaves the links untouched, for both override
kinds; a supplied empty list replaces the membership only for MovedLesson,
while the Substitution update rolls back (see the counterexample). -/
theorem update_full_replace_nonempty_and_omit_unchanged (db : Db)
    (sid mid : String) (olds : SubstitutionRow) (oldm : MovedLessonRow)
    (ids : List String)
    (hne : ids ≠ [])
    (hcount : countLessons db ids = ids.length)
    (hres : ∀ i ∈ ids, db.lessons.any (fun l => l.id == i) = true)
    (hfinds : db.substitutions.find? (fun s => s.id == sid) = some olds)
    (hfindm : db.movedLessons.find? (fun m => m.id == mid) = some oldm) :
    subLinkLessons (updateSubstitution false db sid
        { date := none, lessonIds := some ids, substituter := none }).2 sid = ids
  ∧ subLinkLessons (updateSubstitution false db sid
        { date := none, lessonIds := none, substituter := none }).2 sid =
      subLinkLessons db sid
  ∧ movedLinkLessons (updateMovedLesson false db mid
        { date := none, startingPeriod := none, startingDay := none
          room := none, lessonIds := some ids }).2 mid = ids
  ∧ movedLinkLessons (updateMovedLesson false db mid
        { date := none, startingPeriod := none, startingDay := none
          room := none, lessonIds := none }).2 mid =
      movedLinkLessons db mid := by
  have hok : (countLessons db ids == ids.length) = true := beq_iff_eq.mpr hcount
  have hmiss : missingLessonIds db ids = [] := by
    apply List.filter_eq_nil_iff.mpr
    intro i hi
    simp [hres i hi]
  have hval : validateMovedLessonReferences db
      { date := none, startingPeriod := none, startingDay := none
        room := none, lessonIds := some ids } = .ok () := by
    simp only [validateMovedLessonReferences, hmiss]
    simp only [List.isEmpty_nil, if_true, ite_self]
    rfl
  refine ⟨?_, ?_, ?_, ?_⟩
  · match ids, hne, hok with
    | i :: rest, _, hok =>
      simp only [updateSubstitution, updateSubstitutionInner, hfinds, hok, if_true]
      simpa [subLinkLessons] using
        links_after_full_replace db.substitutionLessonMTM sid (i :: rest)
  · simp [updateSubstitution, updateSubstitutionInner, hfinds, subLinkLessons]
  · match ids, hne, hmiss, hval with
    | i :: rest, _, hmiss, hval =>
      simp only [updateMovedLesson, updateMovedLessonInner, hval, hfindm]
      simpa [movedLinkLessons] using
        links_after_full_replace db.movedLessonLessonMTM mid (i :: rest)
  · have hval2 : validateMovedLessonReferences db
        { date := none, startingPeriod := none, startingDay := none
          room := none, lessonIds := none } = .ok () := rfl
    simp [updateMovedLesson, updateMovedLessonInner, hval2, hfindm, movedLinkLessons]

/-- C7 amended, witness: in dbBothOverrides, replacing the membership of
S1 and M1 by the list containing only L2 yields exactly that list on
read-back, and the omit variants leave the original L1 link in place. -/
theorem update_full_replace_witness :
    subLinkLessons (updateSubstitution false dbBothOverrides "S1"
        { date := none, lessonIds := some ["L2"], substituter := none }).2 "S1" = ["L2"]
  ∧ subLinkLessons (updateSubstitution false dbBothOverrides "S1"
        { date := none, lessonIds := none, substituter := none }).2 "S1" =
      subLinkLessons dbBothOverrides "S1"
  ∧ movedLinkLessons (updateMovedLesson false dbBothOverrides "M1"
        { date := none, startingPeriod := none, startingDay := none
          room := none, lessonIds := some ["L2"] }).2 "M1" = ["L2"]
  ∧ movedLinkLessons (updateMovedLesson false dbBothOverrides "M1"
        { date := none, startingPeriod := none, startingDay := none
          room := none, lessonIds := none }).2 "M1" =
      movedLinkLessons dbBothOverrides "M1" :=
  update_full_replace_nonempty_and_omit_unchanged dbBothOverrides "S1" "M1"
    { id := "S1", date := 10, substituter := none }
    { id := "M1", date := 10, startingPeriod := none, startingDay := none, room := none }
    ["L2"] (by decide) (by decide) (by decide) (by decide) (by decide)

/-- C8: enrichment degrades gracefully on catalog misses.  A teacher or
classroom id that does not resolve never shows up in the enriched lists
(it is dropped, the record survives), an unresolvable subject or period
projects to none rather than an error, the record keeps its lesson id,
and the batch produces exactly one record per joined lesson. -/
theorem enrichment_tolerates_catalog_misses (subjects : List SubjectRow)
    (days : List DayRow) (periods : List PeriodRow) (teachers : List TeacherRow)
    (classrooms : List ClassroomRow) (l : LessonRow) (tid rid : String)
    (ht : lookupTeacher teachers tid = none)
    (hr : lookupClassroom classrooms rid = none)
    (hs : lookupSubject subjects l.subjectId = none)
    (hp : lookupPeriod periods l.periodId = none)
    (db : Db) (cohortId : String) (es : List EnrichedLesson)
    (hes : getLessonsForCohort db cohortId = .ok es) :
    (∀ t ∈ (enrichLesson subjects days periods teachers classrooms l).teachers, t.id ≠ tid)
  ∧ (∀ r ∈ (enrichLesson subjects days periods teachers classrooms l).classrooms, r.id ≠ rid)
  ∧ (enrichLesson subjects days periods teachers classrooms l).subject = none
  ∧ (enrichLesson subjects days periods teachers classrooms l).period = none
  ∧ (enrichLesson subjects days periods teachers classrooms l).id = l.id
  ∧ es.length = (cohortLessons db cohortId).length := by
  refine ⟨?_, ?_, ?_, ?_, rfl, ?_⟩
  · intro t htm heq
    simp only [enrichLesson] at htm
    rcases List.mem_map.mp htm with ⟨row, hrow, rfl⟩
    rcases List.mem_filterMap.mp hrow with ⟨i, _, hfind⟩
    have hid : row.id = i := by
      have := List.find?_some hfind
      simpa using this
    simp only at heq
    rw [heq] at hid
    rw [← hid] at hfind
    rw [ht] at hfind
    cases hfind
  · intro r hrm heq
    simp only [enrichLesson] at hrm
    rcases List.mem_map.mp hrm with ⟨row, hrow, rfl⟩
    rcases List.mem_filterMap.mp hrow with ⟨i, _, hfind⟩
    have hid : row.id = i := by
      have := List.find?_some hfind
      simpa using this
    simp only at heq
    rw [heq] at hid
    rw [← hid] at hfind
    rw [hr] at hfind
    cases hfind
  · simp [enrichLesson, hs]
  · simp [enrichLesson, hp]
  · simp only [getLessonsForCohort] at hes
    split at hes
    · cases hes
      exact List.length_map _ _
    · cases hes

/-- A single catalog teacher row used by the enrichment witness. -/
def teacherT1 : TeacherRow :=
  { id := "T1", firstName := "Ada", lastName := "Lovelace", short := "AL" }

/-- The bare enrichment of lesson L1 against empty catalogs. -/
def enrichedL1Bare : EnrichedLesson :=
  { id := "L1", subject := none, teachers := [], classrooms := [], day := none
    period := none, weeksDefinitionId := "W1", termDefinitionId := "TERM1"
    periodsPerWeek := 2 }

/-- C8 witness: with a catalog holding only teacher T1, the lesson L1
(which also names teacher T2 and classroom R1) is still enriched; the
unresolvable T2 and R1 are absent from the output, subject and period are
none, and the batch for cohort K1 yields one record for its one lesson. -/
theorem enrichment_tolerates_catalog_misses_witness :
    (∀ t ∈ (enrichLesson [] [] [] [teacherT1] [] lessonL1).teachers, t.id ≠ "T2")
  ∧ (∀ r ∈ (enrichLesson [] [] [] [teacherT1] [] lessonL1).classrooms, r.id ≠ "R1")
  ∧ (enrichLesson [] [] [] [teacherT1] [] lessonL1).subject = none
  ∧ (enrichLesson [] [] [] [teacherT1] [] lessonL1).period = none
  ∧ (enrichLesson [] [] [] [teacherT1] [] lessonL1).id = lessonL1.id
  ∧ [enrichedL1Bare].length = (cohortLessons dbDupLinks "K1").length :=
  enrichment_tolerates_catalog_misses [] [] [] [teacherT1] []
    lessonL1 "T2" "R1" (by decide) (by decide) (by decide) (by decide)
    dbDupLinks "K1" _ (by decide)

/-- Store with one override of each kind dated day 5 and one dated day 4,
read with day 5 as today. -/
def dbRelevant : Db :=
  { emptyDb with
      movedLessons := [{ id := "MA", date := 5, startingPeriod := none
                         startingDay := none, room := none },
                       { id := "MB", date := 4, startingPeriod := none
                         startingDay := none, room := none }]
      substitutions := [{ id := "SA", date := 5, substituter := none },
                        { id := "SB", date := 4, substituter := none }] }

/-- C9: the relevant reads keep an override dated exactly today (the
filter is date greater-or-equal today, inclusive) and drop one dated the
previous day, for both override kinds; the comparison is on the calendar
date values alone. -/
theorem relevant_reads_include_today_exclude_yesterday (db : Db) (today : Nat)
    (m1 m2 : MovedLessonRow) (s1 s2 : SubstitutionRow)
    (hm1 : m1 ∈ db.movedLessons) (hm2 : m2 ∈ db.movedLessons)
    (hs1 : s1 ∈ db.substitutions) (hs2 : s2 ∈ db.substitutions)
    (hd1 : m1.date = today) (hd2 : m2.date + 1 = today)
    (he1 : s1.date = today) (he2 : s2.date + 1 = today) :
    (∃ v ∈ getRelevantMovedLessons today db, v.movedLesson = m1)
  ∧ (∀ v ∈ getRelevantMovedLessons today db, v.movedLesson ≠ m2)
  ∧ (∃ v ∈ getRelevantSubstitutions today db, v.substitution = s1)
  ∧ (∀ v ∈ getRelevantSubstitutions today db, v.substitution ≠ s2) := by
  refine ⟨?_, ?_, ?_, ?_⟩
  · refine ⟨movedLessonView db m1 (movedLinkLessons db m1.id), ?_, rfl⟩
    simp only [getRelevantMovedLessons]
    exact List.mem_map_of_mem _ (List.mem_filter.mpr ⟨hm1, by simp [hd1]⟩)
  · intro v hv heq
    simp only [getRelevantMovedLessons] at hv
    rcases List.mem_map.mp hv with ⟨m, hm, rfl⟩
    have hle := (List.mem_filter.mp hm).2
    simp only [decide_eq_true_eq] at hle
    simp only [movedLessonView] at heq
    rw [heq] at hle
    omega
  · refine ⟨substitutionView db s1 (subLinkLessons db s1.id), ?_, rfl⟩
    simp only [getRelevantSubstitutions]
    exact List.mem_map_of_mem _ (List.mem_filter.mpr ⟨hs1, by simp [he1]⟩)
  · intro v hv heq
    simp only [getRelevantSubstitutions] at hv
    rcases List.mem_map.mp hv with ⟨s, hs, rfl⟩
    have hle := (List.mem_filter.mp hs).2
    simp only [decide_eq_true_eq] at hle
    simp only [substitutionView] at heq
    rw [heq] at hle
    omega

/-- C9 witness: in dbRelevant read on day 5, the overrides dated day 5
are returned and the ones dated day 4 are not. -/
theorem relevant_reads_boundary_witness :
    (∃ v ∈ getRelevantMovedLessons 5 dbRelevant,
      v.movedLesson = { id := "MA", date := 5, startingPeriod := none
                        startingDay := none, room := none })
  ∧ (∀ v ∈ getRelevantMovedLessons 5 dbRelevant,
      v.movedLesson ≠ { id := "MB", date := 4, startingPeriod := none
                        startingDay := none, room := none })
  ∧ (∃ v ∈ getRelevantSubstitutions 5 dbRelevant,
      v.substitution = { id := "SA", date := 5, substituter := none })
  ∧ (∀ v ∈ getRelevantSubstitutions 5 dbRelevant,
      v.substitution ≠ { id := "SB", date := 4, substituter := none }) :=
  relevant_reads_include_today_exclude_yesterday dbRelevant 5
    { id := "MA", date := 5, startingPeriod := none, startingDay := none, room := none }
    { id := "MB", date := 4, startingPeriod := none, startingDay := none, room := none }
    { id := "SA", date := 5, substituter := none }
    { id := "SB", date := 4, substituter := none }
    (by decide) (by decide) (by decide) (by decide)
    (by decide) (by decide) (by decide) (by decide)

/-- Key cardinality fact behind C10: when the lesson ids in the store are
distinct, every supplied id resolves, and the supplied list repeats an
id, the matching-row count is strictly below the supplied length. -/
theorem countLessons_lt_of_dup (db : Db) (ids : List String)
    (hnd : (db.lessons.map (fun l => l.id)).Nodup)
    (hres : ∀ i ∈ ids, i ∈ db.lessons.map (fun l => l.id))
    (hdup : ¬ ids.Nodup) :
    countLessons db ids < ids.length := by
  have h1 : countLessons db ids =
      ((db.lessons.map (fun l => l.id)).filter (fun x => ids.contains x)).length := by
    rw [List.filter_map]
    simp only [countLessons, List.length_map]
    rfl
  set L := db.lessons.map (fun l => l.id) with hL
  have hfil : (L.filter (fun x => ids.contains x)).Nodup := hnd.filter _
  have hset : (L.filter (fun x => ids.contains x)).toFinset = ids.toFinset := by
    ext x
    simp only [List.mem_toFinset, List.mem_filter, List.elem_iff]
    constructor
    · rintro ⟨_, h⟩
      exact h
    · intro hx
      exact ⟨hres x hx, hx⟩
  have hlen : countLessons db ids = ids.dedup.length := by
    rw [h1, ← List.toFinset_card_of_nodup hfil, hset, List.card_toFinset]
  have hlt : ids.dedup.length < ids.length := by
    rcases Nat.lt_or_ge ids.dedup.length ids.length with h | h
    · exact h
    · exfalso
      have hle := (List.dedup_sublist ids).length_le
      have heq : ids.dedup.length = ids.length := Nat.le_antisymm hle h
      have hde := (List.dedup_sublist ids).eq_of_length heq
      exact hdup (hde ▸ ids.nodup_dedup)
  rw [hlen]
  exact hlt

/-- C10: a lesson-id list that repeats an existing id fails the
set-cardinality existence check of both createSubstitution and
updateSubstitution even though every id resolves: the matching-row count
falls short of the list length, the create surfaces the mismatch
BadRequest unwrapped, the update raises the same class of mismatch error
inside its body (its catch then re-surfaces it generically), and in every
case the store is untouched. -/
theorem duplicate_lessonIds_fail_cardinality_check (db : Db) (newId : String)
    (date : Nat) (sub : Option String) (ids : List String) (sid : String)
    (old : SubstitutionRow)
    (hnd : (db.lessons.map (fun l => l.id)).Nodup)
    (hres : ∀ i ∈ ids, i ∈ db.lessons.map (fun l => l.id))
    (hdup : ¬ ids.Nodup)
    (hfind : db.substitutions.find? (fun s => s.id == sid) = some old) :
    createSubstitution false db newId
        { date := some date, lessonIds := some ids, substituter := sub } =
      (.error (.badRequest "attempted to substitute non-existent lesson(s)"), db)
  ∧ updateSubstitutionInner false db sid
        { date := none, lessonIds := some ids, substituter := none } =
      (.error (.badRequest "Some lessons do not exist"), db)
  ∧ (updateSubstitution false db sid
        { date := none, lessonIds := some ids, substituter := none }).1 =
      .error (.internalError "Failed to update substitution") := by
  have hne : countLessons db ids ≠ ids.length :=
    Nat.ne_of_lt (countLessons_lt_of_dup db ids hnd hres hdup)
  have hbeq : (countLessons db ids == ids.length) = false := by
    simpa using hne
  refine ⟨?_, ?_, ?_⟩
  · simp [createSubstitution, hne]
  · simp [updateSubstitutionInner, hfind, hbeq]
  · simp [updateSubstitution, updateSubstitutionInner, hfind, hbeq, rethrowAsInternal]

/-- C10 witness: in dbSubLinked the list naming L1 twice resolves id-wise
but fails the cardinality check on create and update. -/
theorem duplicate_lessonIds_witness :
    createSubstitution false dbSubLinked "S7"
        { date := some 10, lessonIds := some ["L1", "L1"], substituter := none } =
      (.error (.badRequest "attempted to substitute non-existent lesson(s)"), dbSubLinked)
  ∧ updateSubstitutionInner false dbSubLinked "S1"
        { date := none, lessonIds := some ["L1", "L1"], substituter := none } =
      (.error (.badRequest "Some lessons do not exist"), dbSubLinked)
  ∧ (updateSubstitution false dbSubLinked "S1"
        { date := none, lessonIds := some ["L1", "L1"], substituter := none }).1 =
      .error (.internalError "Failed to update substitution") :=
  duplicate_lessonIds_fail_cardinality_check dbSubLinked "S7" 10 none ["L1", "L1"] "S1"
    { id := "S1", date := 10, substituter := none }
    (by decide) (by decide) (by decide) (by decide)

end Chronos
